import Mathlib

/-!
# Verification of the tranquility broadcast node

Shallow embedding of the message-handling and gossip-dissemination engine of
the tranquility repository (src/main.rs, src/message.rs, src/node.rs).

Modelling conventions:
* Rust u32 values (broadcast values, message ids) are Nat; where u32 overflow
  matters (the message-id counter) arithmetic is taken modulo 2^32.
* HashSet becomes Finset Nat; HashMap String (Vec String) becomes an
  association list; a Vec becomes a List.
* A Rust panic (unwrap or expect on None, or an explicit panic in
  generate_uuid) is modelled by returning none from the embedded function;
  the handler is treated as atomic, so a panicking handler produces no state
  change.
* The response_callbacks table maps message ids to boxed closures.  Every
  closure the async variant (node.rs) ever stores removes its own key from
  unacknowledged_messages, and every closure the sync variant (main.rs,
  message.rs) stores only logs.  The table is therefore embedded as the
  Finset of its keys, and invocation of the callback for key k is inlined at
  the call sites with exactly those effects.
* Wire parsing (serde_json) is out of scope per the specification; an input
  line is embedded as Option Message, none standing for a line that fails to
  parse.
* DefaultHasher and the nanosecond clock used by generate_uuid are external;
  generate_uuid is embedded as returning the hash preimage string, with the
  timestamp passed in as a parameter.  Claims only depend on when it panics.
-/

namespace Tranquility

/-- 2^32, the modulus for the u32 message-id counter. -/
def U32 : Nat := 4294967296

/-- Body of an init message (message.rs InitBody). -/
structure InitBody where
  msg_id : Option Nat
  node_id : String
  node_ids : Option (List String)
deriving DecidableEq

/-- Body of an echo message (message.rs EchoBody). -/
structure EchoBody where
  msg_id : Option Nat
  in_reply_to : Option Nat
  echo : String
deriving DecidableEq

/-- Body of a generate message (message.rs GenerateBody); msg_id is required. -/
structure GenerateBody where
  msg_id : Nat
deriving DecidableEq

/-- Body of a broadcast message (message.rs BroadcastBody). -/
structure BroadcastBody where
  message : Nat
  msg_id : Option Nat
  in_reply_to : Option Nat
deriving DecidableEq

/-- Body of a read message (message.rs ReadBody).  The type discriminator is
kept because message.rs generate_response inspects it. -/
structure ReadBody where
  type : String
  msg_id : Option Nat
deriving DecidableEq

/-- Body of a topology message (message.rs TopologyBody); the HashMap is an
association list. -/
structure TopologyBody where
  topology : List (String × List String)
  msg_id : Option Nat
deriving DecidableEq

/-- Body of a broadcast_ok acknowledgment.  node.rs matches on a BroadcastOk
body variant (its contemporary message module carried it); in the message.rs
snapshot under src/ the variant is absent, so Message.new below sends it to
the Invalid fallback, as its wildcard arm would. -/
structure BroadcastOkBody where
  in_reply_to : Nat
deriving DecidableEq

/-- The closed set of body variants (message.rs MessageBody, plus the
BroadcastOk variant required by the node.rs match arms). -/
inductive MessageBody where
  | init : InitBody → MessageBody
  | echo : EchoBody → MessageBody
  | broadcast : BroadcastBody → MessageBody
  | topology : TopologyBody → MessageBody
  | read : ReadBody → MessageBody
  | generate : GenerateBody → MessageBody
  | broadcastOk : BroadcastOkBody → MessageBody
deriving DecidableEq

/-- A wire envelope (message.rs Message): src is optional, dest required. -/
structure Message where
  src : Option String
  dest : String
  body : MessageBody
deriving DecidableEq

/-- Classified message kinds of message.rs and main.rs (seven variants, no
BroadcastOk). -/
inductive MessageKind where
  | init : Message → MessageKind
  | echo : Message → MessageKind
  | invalid : Message → MessageKind
  | generate : Message → MessageKind
  | broadcast : Message → MessageKind
  | read : Message → MessageKind
  | topology : Message → MessageKind
deriving DecidableEq

/-- Classified message kinds matched by Node::run_callback in node.rs, which
additionally has a BroadcastOk arm. -/
inductive NodeMsg where
  | init : Message → NodeMsg
  | echo : Message → NodeMsg
  | invalid : Message → NodeMsg
  | generate : Message → NodeMsg
  | broadcast : Message → NodeMsg
  | read : Message → NodeMsg
  | topology : Message → NodeMsg
  | broadcastOk : Message → NodeMsg
deriving DecidableEq

/-- An outbound gossip envelope written to stdout by the dissemination and
retry code: a broadcast message with the given destination, fresh msg_id,
no in_reply_to, and the disseminated value. -/
structure Envelope where
  src : Option String
  dest : String
  msg_id : Option Nat
  in_reply_to : Option Nat
  message : Nat
deriving DecidableEq

/-- Body of an init_ok reply. -/
structure InitOkBody where
  msg_id : Option Nat
  in_reply_to : Option Nat
deriving DecidableEq

/-- Body of an echo_ok reply. -/
structure EchoOkBody where
  msg_id : Option Nat
  in_reply_to : Option Nat
  echo : String
deriving DecidableEq

/-- Body of a generate_ok reply; id holds the hash preimage string (the
DefaultHasher application is external). -/
structure GenerateOkBody where
  msg_id : Option Nat
  in_reply_to : Option Nat
  id : String
deriving DecidableEq

/-- Body of a broadcast_ok reply. -/
structure BroadcastOkRespBody where
  msg_id : Option Nat
  in_reply_to : Nat
deriving DecidableEq

/-- Body of a read_ok reply carrying the seen set. -/
structure ReadOkBody where
  messages : Finset Nat
  msg_id : Option Nat
  in_reply_to : Nat
deriving DecidableEq

/-- Body of a topology_ok reply. -/
structure TopologyOkBody where
  in_reply_to : Nat
  msg_id : Option Nat
deriving DecidableEq

/-- Synchronous replies (message.rs Response).  Each constructor carries the
src and dest of the reply envelope and its body. -/
inductive Response where
  | initOk : Option String → String → InitOkBody → Response
  | echoOk : Option String → String → EchoOkBody → Response
  | generateOk : Option String → String → GenerateOkBody → Response
  | broadcastOk : Option String → String → BroadcastOkRespBody → Response
  | readOk : Option String → String → ReadOkBody → Response
  | topologyOk : Option String → String → TopologyOkBody → Response
  | invalid : Option String → String → String → Response
deriving DecidableEq

/-- Shared node state (node.rs Node; the main.rs Node is the same minus the
unacknowledged_messages field, which its code never touches). -/
structure Node where
  id : Option String
  messages : Finset Nat
  topology : List String
  current_message_id : Nat
  response_callbacks : Finset Nat
  unacknowledged_messages : Finset Nat
deriving DecidableEq

/-- Node::next_message_id: increments the u32 counter (wrapping at 2^32) and
returns the new value together with the updated node. -/
def Node.next_message_id (node : Node) : Nat × Node :=
  let c := (node.current_message_id + 1) % U32
  (c, { node with current_message_id := c })

/-- Node::generate_uuid: with the id set, hashes the string
id-client_id-nanos; we return the preimage string (hashing is external).
With the id unset it panics (none). -/
def Node.generate_uuid (node : Node) (client_id : String) (nanos : Nat) :
    Option String :=
  match node.id with
  | some i => some (i ++ "-" ++ client_id ++ "-" ++ toString nanos)
  | none => none

/-- The filter_map in the node.rs Broadcast arm: walks the topology, skips
the src of the inbound message, and pairs every other neighbor with a
freshly allocated message id; returns the pairs and the final counter. -/
def mapNeighbors (src : String) : List String → Nat → List (String × Nat) × Nat
  | [], c => ([], c)
  | t :: ts, c =>
    if t = src then mapNeighbors src ts c
    else
      let c1 := (c + 1) % U32
      let r := mapNeighbors src ts c1
      ((t, c1) :: r.1, r.2)

/-- Node::run_callback (node.rs).  Returns none on panic.  On success
returns the updated node and, for the Broadcast arm when the value was not
yet seen, the (neighbor, message id) fan-out pairs handed to the spawned
retry task (some pairs); every other outcome returns no dissemination
event (none in the second component). -/
def Node.run_callback (node : Node) (msg : NodeMsg) :
    Option (Node × Option (List (String × Nat))) :=
  match msg with
  | .init m =>
    match m.body with
    | .init b => some ({ node with id := some b.node_id }, none)
    | _ => some (node, none)
  | .broadcastOk m =>
    match node.id with
    | none => none
    | some nid =>
      if m.dest ≠ nid then some (node, none)
      else
        match m.body with
        | .broadcastOk b =>
          if b.in_reply_to ∈ node.response_callbacks then
            some ({ node with
                      response_callbacks :=
                        node.response_callbacks.erase b.in_reply_to,
                      unacknowledged_messages :=
                        node.unacknowledged_messages.erase b.in_reply_to },
                  none)
          else some (node, none)
        | _ => some (node, none)
  | .broadcast m =>
    match m.body with
    | .broadcast b =>
      if b.message ∈ node.messages then some (node, none)
      else
        match m.src with
        | none =>
          if node.topology.isEmpty then
            some ({ node with messages := insert b.message node.messages },
                  some [])
          else none
        | some s =>
          let r := mapNeighbors s node.topology node.current_message_id
          some ({ node with
                    messages := insert b.message node.messages,
                    current_message_id := r.2,
                    unacknowledged_messages :=
                      node.unacknowledged_messages ∪
                        (r.1.map Prod.snd).toFinset },
                some r.1)
    | _ => some (node, none)
  | .topology m =>
    match m.body with
    | .topology tb =>
      match node.id with
      | none => none
      | some nid =>
        match List.lookup nid tb.topology with
        | some l => some ({ node with topology := l }, none)
        | none => some (node, none)
    | _ => some (node, none)
  | .read _ => some (node, none)
  | .generate _ => some (node, none)
  | .invalid _ => some (node, none)
  | .echo _ => some (node, none)

/-- Node::retry (node.rs): the retry-loop guard; true while the whole shared
unacknowledged set is non-empty. -/
def Node.retry (node : Node) : Bool :=
  decide (node.unacknowledged_messages ≠ ∅)

/-- Node::filter_messages (node.rs): the (neighbor, id) pairs of one
dissemination event whose ids are still unacknowledged. -/
def Node.filter_messages (node : Node) (mapped : List (String × Nat)) :
    List (String × Nat) :=
  mapped.filter (fun p => decide (p.2 ∈ node.unacknowledged_messages))

/-- Node::send_message (node.rs): emits one broadcast envelope for the given
neighbor reusing the given message id, and registers the acknowledgment
callback for that id if absent (the stored closure removes the id from
unacknowledged_messages when invoked). -/
def Node.send_message (node : Node) (v : Nat) (nid : String) (mid : Nat) :
    Node × Envelope :=
  let ev : Envelope := ⟨node.id, nid, some mid, none, v⟩
  if mid ∈ node.response_callbacks then (node, ev)
  else ({ node with response_callbacks := insert mid node.response_callbacks },
        ev)

/-- Sends one envelope per pair through Node.send_message, threading the
node. -/
def sendAll (node : Node) (v : Nat) : List (String × Nat) → Node × List Envelope
  | [] => (node, [])
  | p :: ps =>
    let r := node.send_message v p.1 p.2
    let rest := sendAll r.1 v ps
    (rest.1, r.2 :: rest.2)

/-- One iteration of the node.rs retry loop body: re-send every pair of this
dissemination event whose id is still unacknowledged. -/
def Node.retryRound (node : Node) (v : Nat) (mapped : List (String × Nat)) :
    Node × List Envelope :=
  sendAll node v (node.filter_messages mapped)

/-- MessageKind::run_callback, the fan-out loop over the topology (main.rs
and message.rs Broadcast arm): for every neighbor other than the inbound
src, allocate a fresh id, emit the broadcast envelope, and register a
(log-only) callback under that id. -/
def fanoutLoop (node : Node) (v : Nat) (src : String) :
    List String → Node × List Envelope
  | [] => (node, [])
  | t :: ts =>
    if t = src then fanoutLoop node v src ts
    else
      let r := node.next_message_id
      let ev : Envelope := ⟨r.2.id, t, some r.1, none, v⟩
      let n2 := { r.2 with
                    response_callbacks := insert r.1 r.2.response_callbacks }
      let rest := fanoutLoop n2 v src ts
      (rest.1, ev :: rest.2)

/-- MessageKind::run_callback (message.rs; identical in main.rs): the
pre-dispatch state mutation.  Returns none on panic, otherwise the updated
node and the broadcast envelopes emitted inline by the Broadcast arm. -/
def MessageKind.run_callback (msg : MessageKind) (node : Node) :
    Option (Node × List Envelope) :=
  match msg with
  | .init m =>
    match m.body with
    | .init b => some ({ node with id := some b.node_id }, [])
    | _ => some (node, [])
  | .broadcast m =>
    match m.body with
    | .broadcast b =>
      let node1 :=
        match b.in_reply_to with
        | some irt =>
          { node with response_callbacks := node.response_callbacks.erase irt }
        | none => node
      if b.message ∈ node.messages then some (node1, [])
      else
        match m.src with
        | none =>
          if node1.topology.isEmpty then
            some ({ node1 with messages := insert b.message node1.messages },
                  [])
          else none
        | some s =>
          let r := fanoutLoop
              { node1 with messages := insert b.message node1.messages }
              b.message s node1.topology
          some r
    | _ => some (node, [])
  | .topology m =>
    match m.body with
    | .topology tb =>
      match node.id with
      | none => none
      | some nid =>
        match List.lookup nid tb.topology with
        | some l => some ({ node with topology := l }, [])
        | none => some (node, [])
    | _ => some (node, [])
  | .read _ => some (node, [])
  | .generate _ => some (node, [])
  | .invalid _ => some (node, [])
  | .echo _ => some (node, [])

/-- MessageKind::generate_response (message.rs; main.rs is identical except
that its Read arm lacks the body-type check).  Takes the nanosecond
timestamp used by the Generate arm as a parameter.  Outer none is a panic;
inner none is the no-reply outcome of the message.rs Read arm when the body
type discriminator is not read. -/
def MessageKind.generate_response (msg : MessageKind) (node : Node)
    (nanos : Nat) : Option (Option Response × Node) :=
  match msg with
  | .init m =>
    match m.body with
    | .init b =>
      match m.src with
      | none => none
      | some s =>
        let r := node.next_message_id
        some (some (.initOk r.2.id s ⟨some r.1, b.msg_id⟩), r.2)
    | _ =>
      match m.src with
      | none => none
      | some s => some (some (.invalid node.id s ("There was an error.")), node)
  | .echo m =>
    match m.body with
    | .echo b =>
      match m.src with
      | none => none
      | some s =>
        let r := node.next_message_id
        some (some (.echoOk r.2.id s ⟨some r.1, b.msg_id, b.echo⟩), r.2)
    | _ =>
      match m.src with
      | none => none
      | some s => some (some (.invalid node.id s ("There was an error.")), node)
  | .generate m =>
    match m.body with
    | .generate b =>
      match m.src with
      | none => none
      | some s =>
        let r := node.next_message_id
        match r.2.generate_uuid s nanos with
        | none => none
        | some uid =>
          some (some (.generateOk r.2.id s ⟨some r.1, some b.msg_id, uid⟩),
                r.2)
    | _ =>
      match m.src with
      | none => none
      | some s => some (some (.invalid node.id s ("There was an error.")), node)
  | .broadcast m =>
    match m.body with
    | .broadcast b =>
      match m.src with
      | none => none
      | some s =>
        match b.msg_id with
        | none => none
        | some bmid =>
          let r := node.next_message_id
          some (some (.broadcastOk r.2.id s ⟨some r.1, bmid⟩), r.2)
    | _ =>
      match m.src with
      | none => none
      | some s => some (some (.invalid node.id s ("There was an error.")), node)
  | .read m =>
    match m.body with
    | .read rb =>
      if rb.type ≠ "read" then some (none, node)
      else
        match m.src with
        | none => none
        | some s =>
          match rb.msg_id with
          | none => none
          | some q =>
            let r := node.next_message_id
            some (some (.readOk r.2.id s ⟨r.2.messages, some r.1, q⟩), r.2)
    | _ =>
      match m.src with
      | none => none
      | some s => some (some (.invalid node.id s ("There was an error.")), node)
  | .topology m =>
    match m.body with
    | .topology tb =>
      match m.src with
      | none => none
      | some s =>
        match tb.msg_id with
        | none => none
        | some q =>
          let r := node.next_message_id
          some (some (.topologyOk r.2.id s ⟨q, some r.1⟩), r.2)
    | _ =>
      match m.src with
      | none => none
      | some s => some (some (.invalid node.id s ("There was an error.")), node)
  | .invalid m =>
    match m.src with
    | none => none
    | some s => some (some (.invalid node.id s ("There was an error.")), node)

/-- Message::new (message.rs): classification by body shape.  The snapshot
has no BroadcastOk body variant; with the variant present it would fall to
the wildcard Invalid arm, embedded accordingly. -/
def Message.new (m : Message) : MessageKind :=
  match m.body with
  | .init _ => .init m
  | .echo _ => .echo m
  | .generate _ => .generate m
  | .broadcast _ => .broadcast m
  | .read _ => .read m
  | .topology _ => .topology m
  | .broadcastOk _ => .invalid m

/-- Modelled from the spec: the classifier feeding Node::run_callback in the
node.rs pipeline, whose contemporary Message::new (with a BroadcastOk arm)
is not under src/.  Spec section 3: Body is a closed set of variants Init,
Echo, Generate, Broadcast, BroadcastOk, Topology, Read, with an Invalid
fallback for anything matching none; classification is by structural
shape. -/
def nodeClassify (m : Message) : NodeMsg :=
  match m.body with
  | .init _ => .init m
  | .echo _ => .echo m
  | .generate _ => .generate m
  | .broadcast _ => .broadcast m
  | .read _ => .read m
  | .topology _ => .topology m
  | .broadcastOk _ => .broadcastOk m

/-- Outcome of handling one input line. -/
inductive LineResult where
  | parseError : LineResult
  | panicked : LineResult
  | ok : Option Response → LineResult
deriving DecidableEq

/-- Node::handle_from_stdin (node.rs): an unparsable line (none) yields the
error result before any state is touched; a parsed line runs the callback,
allocates a message id, and computes the reply.  node.rs calls a two-argument
generate_response revision absent from src/; the message.rs revision stands
in for the reply computation. -/
def Node.handle_from_stdin (node : Node) (line : Option Message) (nanos : Nat) :
    Node × LineResult :=
  match line with
  | none => (node, .parseError)
  | some m =>
    match Node.run_callback node (nodeClassify m) with
    | none => (node, .panicked)
    | some r =>
      let r2 := r.1.next_message_id
      match MessageKind.generate_response (Message.new m) r2.2 nanos with
      | none => (r2.2, .panicked)
      | some r3 => (r3.2, .ok r3.1)

/-- Node::run (node.rs): every received line is dispatched to its own task;
no per-line outcome stops the loop, which consumes the whole input.
Sequentialized model of the concurrently spawned handlers. -/
def Node.runLines (node : Node) (nanos : Nat) :
    List (Option Message) → Node × List LineResult
  | [] => (node, [])
  | l :: ls =>
    let r := node.handle_from_stdin l nanos
    let rest := Node.runLines r.1 nanos ls
    (rest.1, r.2 :: rest.2)

/-- Node::run (main.rs): reads lines in a loop; a parse failure propagates
out of the loop via the question-mark operator and ends processing (third
component true); otherwise the callback runs, the reply is emitted, and the
loop continues.  A panic also ends the process. -/
def Node.runMain (node : Node) (nanos : Nat) :
    List (Option Message) → Node × List (Option Response) × Bool
  | [] => (node, [], false)
  | none :: _ => (node, [], true)
  | some m :: rest =>
    let k := Message.new m
    match k.run_callback node with
    | none => (node, [], true)
    | some r =>
      match MessageKind.generate_response k r.1 nanos with
      | none => (r.1, [], true)
      | some r2 =>
        let rec3 := Node.runMain r2.2 nanos rest
        (rec3.1, r2.1 :: rec3.2.1, rec3.2.2)

/-- Folds Node.run_callback (node.rs) over a list of messages, counting the
dissemination events (steps whose Broadcast arm took the unseen branch and
spawned a retry task); none if any step panicked. -/
def runNodeSeq (node : Node) : List NodeMsg → Option (Node × Nat)
  | [] => some (node, 0)
  | m :: ms =>
    match node.run_callback m with
    | none => none
    | some r =>
      match runNodeSeq r.1 ms with
      | none => none
      | some rest =>
        some (rest.1, (if r.2.isSome then 1 else 0) + rest.2)

/-- Folds MessageKind.run_callback (message.rs, main.rs) over a list of
classified messages; none if any step panicked. -/
def runKindSeq (node : Node) : List MessageKind → Option Node
  | [] => some node
  | m :: ms =>
    match m.run_callback node with
    | none => none
    | some r => runKindSeq r.1 ms

/-- Builds an inbound broadcast request envelope. -/
def mkBroadcast (src dest : String) (v : Nat) (mid irt : Option Nat) :
    Message :=
  ⟨some src, dest, .broadcast ⟨v, mid, irt⟩⟩

/-- The one escape from the src unwrap in message.rs generate_response: a
Read-classified message whose read body carries a type discriminator other
than read returns early with no reply. -/
def readEscape (msg : MessageKind) : Bool :=
  match msg with
  | .read m =>
    match m.body with
    | .read rb => decide (rb.type ≠ "read")
    | _ => false
  | _ => false

/-- The envelope carried by a classified message. -/
def MessageKind.envelope : MessageKind → Message
  | .init m => m
  | .echo m => m
  | .invalid m => m
  | .generate m => m
  | .broadcast m => m
  | .read m => m
  | .topology m => m

/-- True exactly on the Init constructor. -/
def NodeMsg.isInit : NodeMsg → Bool
  | .init _ => true
  | _ => false

/-- True exactly on the Init constructor. -/
def MessageKind.isInit : MessageKind → Bool
  | .init _ => true
  | _ => false

/-- A sequence of inbound broadcast requests, all carrying the value v, from
the given (src, msg_id, in_reply_to) triples, classified for the node.rs
handler. -/
def broadcastReqs (d : String) (v : Nat)
    (reqs : List (String × Option Nat × Option Nat)) : List NodeMsg :=
  reqs.map (fun r => .broadcast ⟨some r.1, d, .broadcast ⟨v, r.2.1, r.2.2⟩⟩)

/-- A sequence of inbound broadcast requests from (src, value) pairs,
classified for the main.rs and message.rs handler. -/
def broadcastKinds (d : String) (reqs : List (String × Nat)) :
    List MessageKind :=
  reqs.map (fun r => .broadcast (mkBroadcast r.1 d r.2 none none))

/-- A fresh node as main starts it: no id, empty collections, counter 0. -/
def node0 : Node := ⟨none, ∅, [], 0, ∅, ∅⟩

/-- A node whose topology lists its own id among its neighbors. -/
def nodeSelf : Node := ⟨some ("n1"), ∅, ["n1", "n2"], 0, ∅, ∅⟩

/-- A broadcast of value 7 reaching nodeSelf from client c1. -/
def msgSelf : Message := ⟨some ("c1"), "n1", .broadcast ⟨7, some 1, none⟩⟩

/-- A node with one unacknowledged message id, 2, from some dissemination
event. -/
def nodeC3 : Node := ⟨some ("n1"), ∅, [], 0, ∅, {2}⟩

/-- A node whose u32 message-id counter is two below the wrap point. -/
def nodeWrap : Node := ⟨none, ∅, [], 4294967294, ∅, ∅⟩

/-- A node already initialized with id n1. -/
def nodeN1 : Node := ⟨some ("n1"), ∅, [], 0, ∅, ∅⟩

/-- An init request assigning node id n1. -/
def initMsg1 : Message := ⟨some ("c1"), "n0", .init ⟨some 1, "n1", none⟩⟩

/-- A second init request, assigning node id n2. -/
def initMsg2 : Message := ⟨some ("c1"), "n1", .init ⟨some 2, "n2", none⟩⟩

/-- A topology request naming neighbors for n1. -/
def topoMsg : Message := ⟨some ("c1"), "n0", .topology ⟨[("n1", ["n2"])], some 1⟩⟩

/-- A message with a null src whose body parses as a read body with a
non-read type discriminator. -/
def readWrongType : Message := ⟨none, "n1", .read ⟨"generate", some 1⟩⟩

/-- An echo request with a null src. -/
def echoNoSrc : Message := ⟨none, "n1", .echo ⟨some 1, none, "hello"⟩⟩

/-- An echo request from client c1. -/
def echoMsg1 : Message := ⟨some ("c1"), "n1", .echo ⟨some 1, none, "hello"⟩⟩

/-- A generate request from client c1. -/
def genMsg1 : Message := ⟨some ("c1"), "n0", .generate ⟨5⟩⟩

/-- A broadcast request of value 9 from client c1. -/
def bcastMsg1 : Message := ⟨some ("c1"), "n0", .broadcast ⟨9, some 3, none⟩⟩

/-- The fan-out pairs of the node.rs Broadcast arm target exactly the
neighbors other than the inbound src, in topology order. -/
theorem mapNeighbors_fst (s : String) (ts : List String) :
    ∀ c : Nat,
      ((mapNeighbors s ts c).1).map Prod.fst =
        ts.filter (fun t => decide (¬ t = s)) := by
  induction ts with
  | nil => intro c; rfl
  | cons t ts ih =>
    intro c
    by_cases h : t = s
    · simp [mapNeighbors, h, ih]
    · simp [mapNeighbors, h, ih]

/-- When the counter does not wrap, the freshly allocated fan-out ids are
strictly above the old counter, at most old counter plus the topology
length, and pairwise distinct. -/
theorem mapNeighbors_snd_fresh (s : String) (ts : List String) :
    ∀ c : Nat, c + ts.length < U32 →
      (∀ p ∈ (mapNeighbors s ts c).1, c < p.2 ∧ p.2 ≤ c + ts.length) ∧
      ((mapNeighbors s ts c).1.map Prod.snd).Nodup := by
  induction ts with
  | nil =>
    intro c _
    exact ⟨by intro p hp; simp [mapNeighbors] at hp, by simp [mapNeighbors]⟩
  | cons t ts ih =>
    intro c h
    have hlen : (t :: ts).length = ts.length + 1 := rfl
    by_cases ht : t = s
    · obtain ⟨hb, hn⟩ := ih c (by rw [hlen] at h; omega)
      constructor
      · intro p hp
        rw [show mapNeighbors s (t :: ts) c = mapNeighbors s ts c from by
              simp [mapNeighbors, ht]] at hp
        obtain ⟨h1, h2⟩ := hb p hp
        exact ⟨h1, by rw [hlen]; omega⟩
      · rw [show mapNeighbors s (t :: ts) c = mapNeighbors s ts c from by
              simp [mapNeighbors, ht]]
        exact hn
    · have hc1 : (c + 1) % U32 = c + 1 :=
        Nat.mod_eq_of_lt (by rw [hlen] at h; omega)
      have hunf : (mapNeighbors s (t :: ts) c).1 =
          (t, c + 1) :: (mapNeighbors s ts (c + 1)).1 := by
        simp [mapNeighbors, ht, hc1]
      obtain ⟨hb, hn⟩ := ih (c + 1) (by rw [hlen] at h; omega)
      constructor
      · intro p hp
        rw [hunf] at hp
        rcases List.mem_cons.mp hp with hp1 | hp2
        · subst hp1; exact ⟨by omega, by rw [hlen]; omega⟩
        · obtain ⟨h1, h2⟩ := hb p hp2
          exact ⟨by omega, by rw [hlen]; omega⟩
      · rw [hunf]
        refine List.nodup_cons.mpr ⟨?_, hn⟩
        intro hmem
        simp only [List.mem_map] at hmem
        obtain ⟨p, hp, hps⟩ := hmem
        have := (hb p hp).1
        omega

/-- The node.rs Broadcast arm on an already-seen value: acknowledged but
nothing changes and no dissemination event is spawned. -/
theorem run_callback_broadcast_seen (node : Node) (d : String)
    (os : Option String) (v : Nat) (mid irt : Option Nat)
    (hseen : v ∈ node.messages) :
    Node.run_callback node (.broadcast ⟨os, d, .broadcast ⟨v, mid, irt⟩⟩) =
      some (node, none) := by
  simp [Node.run_callback, hseen]

/-- The node.rs Broadcast arm on a not-yet-seen value with a present src:
value inserted into the seen set, counter advanced through the fan-out,
fresh ids recorded in the unacknowledged set, dissemination event spawned
with the fan-out pairs. -/
theorem run_callback_broadcast_unseen (node : Node) (d s : String) (v : Nat)
    (mid irt : Option Nat) (hun : v ∉ node.messages) :
    Node.run_callback node
        (.broadcast ⟨some s, d, .broadcast ⟨v, mid, irt⟩⟩) =
      some ({ node with
                messages := insert v node.messages,
                current_message_id :=
                  (mapNeighbors s node.topology node.current_message_id).2,
                unacknowledged_messages :=
                  node.unacknowledged_messages ∪
                    (((mapNeighbors s node.topology
                          node.current_message_id).1).map Prod.snd).toFinset },
            some (mapNeighbors s node.topology node.current_message_id).1) := by
  simp [Node.run_callback, hun]

/-- The fan-out loop of main.rs and message.rs only advances the counter and
registers callbacks: id, seen set, topology and unacknowledged set are
untouched. -/
theorem fanoutLoop_frame (v : Nat) (s : String) (ts : List String) :
    ∀ node : Node,
      (fanoutLoop node v s ts).1.messages = node.messages ∧
      (fanoutLoop node v s ts).1.id = node.id ∧
      (fanoutLoop node v s ts).1.topology = node.topology ∧
      (fanoutLoop node v s ts).1.unacknowledged_messages =
        node.unacknowledged_messages := by
  induction ts with
  | nil => intro node; exact ⟨rfl, rfl, rfl, rfl⟩
  | cons t ts ih =>
    intro node
    by_cases h : t = s
    · simpa [fanoutLoop, h] using ih node
    · simpa [fanoutLoop, h] using
        ih { (node.next_message_id).2 with
               response_callbacks :=
                 insert (node.next_message_id).1
                   (node.next_message_id).2.response_callbacks }

/-- Node.send_message emits the envelope for the given neighbor and id with
the current node id as src, and changes at most the callback table. -/
theorem send_message_spec (node : Node) (v : Nat) (nid : String) (mid : Nat) :
    (node.send_message v nid mid).2 = ⟨node.id, nid, some mid, none, v⟩ ∧
    (node.send_message v nid mid).1.id = node.id := by
  unfold Node.send_message
  by_cases h : mid ∈ node.response_callbacks <;> simp [h]

/-- sendAll emits exactly one envelope per pair, each carrying the
disseminated value, the pair's neighbor as dest and the pair's id as msg_id,
with the node id as src. -/
theorem sendAll_emits (v : Nat) (ps : List (String × Nat)) :
    ∀ node : Node,
      (sendAll node v ps).2 =
        ps.map (fun p => (⟨node.id, p.1, some p.2, none, v⟩ : Envelope)) ∧
      (sendAll node v ps).1.id = node.id := by
  induction ps with
  | nil => intro node; exact ⟨rfl, rfl⟩
  | cons p ps ih =>
    intro node
    obtain ⟨hev, hid⟩ := send_message_spec node v p.1 p.2
    obtain ⟨ihev, ihid⟩ := ih (node.send_message v p.1 p.2).1
    constructor
    · simp only [sendAll, ihev, hev, hid, List.map_cons]
    · simp only [sendAll, ihid, hid]

/-- Any successful reply computation changes nothing in the node state but
the message-id counter: id, seen set, topology, callback table and
unacknowledged set are preserved. -/
theorem generate_response_frame (msg : MessageKind) (node : Node) (t : Nat)
    (rn : Option Response × Node)
    (h : MessageKind.generate_response msg node t = some rn) :
    rn.2.id = node.id ∧ rn.2.messages = node.messages ∧
    rn.2.topology = node.topology ∧
    rn.2.response_callbacks = node.response_callbacks ∧
    rn.2.unacknowledged_messages = node.unacknowledged_messages := by
  cases msg <;> rename_i m <;> obtain ⟨ms, md, mb⟩ := m <;>
    cases mb <;> cases ms <;>
    simp only [MessageKind.generate_response, Node.generate_uuid,
      Node.next_message_id] at h <;>
    (try split at h) <;>
    (try split at h) <;>
    (cases h <;> exact ⟨rfl, rfl, rfl, rfl, rfl⟩)

/-- No non-Init arm of Node::run_callback (node.rs) writes the node id. -/
theorem run_callback_id_preserved (node : Node) (msg : NodeMsg)
    (hni : msg.isInit = false) (r : Node × Option (List (String × Nat)))
    (h : Node.run_callback node msg = some r) : r.1.id = node.id := by
  cases msg <;> rename_i m <;>
    first
      | (obtain ⟨ms, md, mb⟩ := m <;> cases mb <;> cases ms <;>
          simp only [Node.run_callback] at h <;>
          (try split at h) <;> (try split at h) <;> (try split at h) <;>
          (try split at h) <;> (try split at h) <;>
          (cases h <;> rfl))
      | (simp [NodeMsg.isInit] at hni)

/-- No non-Init arm of MessageKind::run_callback (message.rs, main.rs)
writes the node id. -/
theorem kind_run_callback_id_preserved (node : Node) (msg : MessageKind)
    (hni : msg.isInit = false) (r : Node × List Envelope)
    (h : msg.run_callback node = some r) : r.1.id = node.id := by
  cases msg <;> rename_i m <;>
    first
      | (obtain ⟨ms, md, mb⟩ := m <;> cases mb <;> cases ms <;>
          simp only [MessageKind.run_callback] at h <;>
          (try split at h) <;> (try split at h) <;> (try split at h) <;>
          (try split at h) <;> (try split at h) <;>
          (cases h <;>
            first
              | rfl
              | exact ((fanoutLoop_frame _ _ _ _).2.1.trans rfl)))
      | (simp [MessageKind.isInit] at hni)

/-- The main.rs and message.rs Broadcast arm (with no in_reply_to) always
succeeds when the src is present, and its only effect on the seen set is to
insert the broadcast value. -/
theorem kind_broadcast_messages (node : Node) (d s : String) (v : Nat) :
    ∃ r, MessageKind.run_callback
        (.broadcast (mkBroadcast s d v none none)) node = some r ∧
      r.1.messages = insert v node.messages := by
  by_cases hseen : v ∈ node.messages
  · exact ⟨(node, []),
      by simp [MessageKind.run_callback, mkBroadcast, hseen],
      (Finset.insert_eq_self.mpr hseen).symm⟩
  · refine ⟨fanoutLoop { node with messages := insert v node.messages } v s
        node.topology,
      by simp [MessageKind.run_callback, mkBroadcast, hseen], ?_⟩
    exact (fanoutLoop_frame v s node.topology _).1.trans rfl

/-- Folding the main.rs and message.rs handler over a sequence of broadcast
requests accumulates exactly the values of the sequence into the seen
set. -/
theorem runKindSeq_broadcasts (d : String) (reqs : List (String × Nat)) :
    ∀ node : Node,
      ∃ node2, runKindSeq node (broadcastKinds d reqs) = some node2 ∧
        node2.messages = node.messages ∪ (reqs.map Prod.snd).toFinset := by
  induction reqs with
  | nil => intro node; exact ⟨node, rfl, by simp⟩
  | cons rq rqs ih =>
    intro node
    obtain ⟨r1, hr1, hm1⟩ := kind_broadcast_messages node d rq.1 rq.2
    obtain ⟨node2, h2, hm2⟩ := ih r1.1
    refine ⟨node2, ?_, ?_⟩
    · have hstep : runKindSeq node (broadcastKinds d (rq :: rqs)) =
          runKindSeq r1.1 (broadcastKinds d rqs) := by
        simp only [broadcastKinds, List.map_cons, runKindSeq, hr1]
      rw [hstep]
      exact h2
    · rw [hm2, hm1]
      ext x
      simp [List.toFinset_cons]

/-- C1: for every node state and every sequence of Broadcast requests
carrying the same value v (from any sources), handling them through the
node.rs handler yields exactly one entry for v in the seen set (when the
sequence is non-empty), spawns at most one fan-out dissemination round
(exactly zero when v was already seen, else exactly one), and a Broadcast
whose value is already in the seen set never triggers a new fan-out. -/
theorem C1_idempotent_dedup (node : Node) (d : String) (v : Nat)
    (reqs : List (String × Option Nat × Option Nat)) :
    ∃ node2 k, runNodeSeq node (broadcastReqs d v reqs) = some (node2, k) ∧
      node2.messages =
        (if reqs.isEmpty then node.messages else insert v node.messages) ∧
      k = (if reqs.isEmpty then 0
           else if v ∈ node.messages then 0 else 1) := by
  induction reqs generalizing node with
  | nil => exact ⟨node, 0, rfl, by simp, by simp⟩
  | cons rq rqs ih =>
    by_cases hseen : v ∈ node.messages
    · obtain ⟨node2, k, hrun, hmsg, hk⟩ := ih node
      have hins : insert v node.messages = node.messages :=
        Finset.insert_eq_self.mpr hseen
      have hstep : runNodeSeq node (broadcastReqs d v (rq :: rqs)) =
          some (node2, k) := by
        simp only [broadcastReqs, List.map_cons, runNodeSeq,
          run_callback_broadcast_seen node d (some rq.1) v rq.2.1 rq.2.2 hseen]
        simp only [broadcastReqs] at hrun
        rw [hrun]
        simp
      have h3 : node2.messages = node.messages := by
        rw [hmsg]; split <;> simp [hins]
      have h4 : k = 0 := by
        rw [hk]; split <;> simp [hseen]
      refine ⟨node2, k, hstep, ?_, ?_⟩
      · show node2.messages = insert v node.messages
        rw [h3]; exact hins.symm
      · show k = if v ∈ node.messages then 0 else 1
        rw [h4]; simp [hseen]
    · obtain ⟨node2, k, hrun, hmsg, hk⟩ := ih { node with
        messages := insert v node.messages,
        current_message_id :=
          (mapNeighbors rq.1 node.topology node.current_message_id).2,
        unacknowledged_messages := node.unacknowledged_messages ∪
          (((mapNeighbors rq.1 node.topology
              node.current_message_id).1).map Prod.snd).toFinset }
      have hv1 : v ∈ insert v node.messages := Finset.mem_insert_self v _
      have hstep : runNodeSeq node (broadcastReqs d v (rq :: rqs)) =
          some (node2, 1 + k) := by
        simp only [broadcastReqs, List.map_cons, runNodeSeq,
          run_callback_broadcast_unseen node d rq.1 v rq.2.1 rq.2.2 hseen]
        simp only [broadcastReqs] at hrun
        rw [hrun]
        simp
      have h3 : node2.messages = insert v node.messages := by
        rw [hmsg]; split <;> simp [Finset.insert_idem]
      have h4 : k = 0 := by
        rw [hk]; split <;> simp
      refine ⟨node2, 1 + k, hstep, ?_, ?_⟩
      · show node2.messages = insert v node.messages
        exact h3
      · show 1 + k = if v ∈ node.messages then 0 else 1
        rw [h4, if_neg hseen]

/-- C2 counterexample: a node whose topology lists its own id disseminates a
fresh value to itself; the fan-out excludes only the immediate sender, so
the claimed "none to self" fails (the main.rs comment above the loop also
promises no send to itself). -/
theorem C2_cex_fanout_to_self :
    (Node.run_callback nodeSelf (.broadcast msgSelf)).map
        (fun r => r.2.map (fun l => l.map Prod.fst)) =
      some (some ["n1", "n2"]) ∧
    nodeSelf.id = some ("n1") :=
  ⟨by decide, rfl⟩

/-- C2 (amended): for every Broadcast of a not-yet-seen value, the node.rs
dissemination produces exactly one fan-out pair per neighbor in the current
topology excluding the immediate sender (none to the original sender; the
node itself is excluded only when its own id is not listed as a neighbor),
each pair carrying a freshly allocated, pairwise-distinct message id that is
recorded in the unacknowledged set before the retry task runs, and the first
retry round emits exactly one Broadcast envelope per pair, each carrying the
same value. -/
theorem C2_fanout_amended (node : Node) (d s : String) (v : Nat)
    (mid irt : Option Nat) (hun : v ∉ node.messages)
    (hc : node.current_message_id + node.topology.length < U32) :
    ∃ node2 pairs,
      Node.run_callback node
          (.broadcast ⟨some s, d, .broadcast ⟨v, mid, irt⟩⟩) =
        some (node2, some pairs) ∧
      pairs.map Prod.fst = node.topology.filter (fun t => decide (¬ t = s)) ∧
      (pairs.map Prod.snd).Nodup ∧
      (∀ p ∈ pairs, node.current_message_id < p.2 ∧
        p.2 ∈ node2.unacknowledged_messages) ∧
      node2.id = node.id ∧
      (node2.retryRound v pairs).2 =
        pairs.map (fun p => (⟨node.id, p.1, some p.2, none, v⟩ : Envelope)) := by
  refine ⟨{ node with
      messages := insert v node.messages,
      current_message_id :=
        (mapNeighbors s node.topology node.current_message_id).2,
      unacknowledged_messages := node.unacknowledged_messages ∪
        (((mapNeighbors s node.topology
            node.current_message_id).1).map Prod.snd).toFinset },
    (mapNeighbors s node.topology node.current_message_id).1,
    run_callback_broadcast_unseen node d s v mid irt hun,
    mapNeighbors_fst s node.topology node.current_message_id,
    (mapNeighbors_snd_fresh s node.topology node.current_message_id hc).2,
    ?_, rfl, ?_⟩
  · intro p hp
    refine ⟨((mapNeighbors_snd_fresh s node.topology
        node.current_message_id hc).1 p hp).1, ?_⟩
    show p.2 ∈ node.unacknowledged_messages ∪
      (((mapNeighbors s node.topology
          node.current_message_id).1).map Prod.snd).toFinset
    apply Finset.mem_union_right
    simp only [List.mem_toFinset, List.mem_map]
    exact ⟨p, hp, rfl⟩
  · have hfil : Node.filter_messages
        { node with
          messages := insert v node.messages,
          current_message_id :=
            (mapNeighbors s node.topology node.current_message_id).2,
          unacknowledged_messages := node.unacknowledged_messages ∪
            (((mapNeighbors s node.topology
                node.current_message_id).1).map Prod.snd).toFinset }
        (mapNeighbors s node.topology node.current_message_id).1 =
        (mapNeighbors s node.topology node.current_message_id).1 := by
      apply List.filter_eq_self.mpr
      intro p hp
      simp only [decide_eq_true_eq]
      show p.2 ∈ node.unacknowledged_messages ∪
        (((mapNeighbors s node.topology
            node.current_message_id).1).map Prod.snd).toFinset
      apply Finset.mem_union_right
      simp only [List.mem_toFinset, List.mem_map]
      exact ⟨p, hp, rfl⟩
    unfold Node.retryRound
    rw [hfil]
    exact (sendAll_emits v
      (mapNeighbors s node.topology node.current_message_id).1 _).1

/-- Witness for C2 at a node with id n1, neighbors n2 and n3, and a fresh
value 42 broadcast by client c1. -/
theorem C2_fanout_amended_witness :
    ∃ node2 pairs,
      Node.run_callback ⟨some ("n1"), ∅, ["n2", "n3"], 0, ∅, ∅⟩
          (.broadcast ⟨some ("c1"), "d1", .broadcast ⟨42, none, none⟩⟩) =
        some (node2, some pairs) ∧
      pairs.map Prod.fst =
        (["n2", "n3"] : List String).filter (fun t => decide (¬ t = "c1")) ∧
      (pairs.map Prod.snd).Nodup ∧
      (∀ p ∈ pairs, 0 < p.2 ∧ p.2 ∈ node2.unacknowledged_messages) ∧
      node2.id = some ("n1") ∧
      (node2.retryRound 42 pairs).2 =
        pairs.map (fun p => (⟨some ("n1"), p.1, some p.2, none, 42⟩ : Envelope)) :=
  C2_fanout_amended ⟨some ("n1"), ∅, ["n2", "n3"], 0, ∅, ∅⟩ "d1" "c1" 42
    none none (by decide) (by decide)

/-- C3 counterexample: the node.rs retry-loop guard tests the whole shared
unacknowledged set, not this event's intersection: with unacknowledged id 2
left by some other event, the guard still holds although the intersection of
this event's ids with the unacknowledged set is already empty, so the loop
does not terminate when the intersection becomes empty. -/
theorem C3_cex_retry_guard :
    Node.retry nodeC3 = true ∧
    Node.filter_messages nodeC3 [("n2", 1)] = [] :=
  ⟨by decide, by decide⟩

/-- C3 (amended): each iteration of the retry loop re-sends exactly the
(neighbor, id) pairs of its dissemination event whose ids are still in the
shared unacknowledged set (the intersection), but the loop guard is false
exactly when the whole shared unacknowledged set is empty; termination
therefore implies an empty intersection, while an empty intersection alone
does not stop the loop as long as ids of other events remain
unacknowledged. -/
theorem C3_retry_amended (node : Node) (mapped : List (String × Nat)) :
    (Node.retry node = false ↔ node.unacknowledged_messages = ∅) ∧
    (∀ p, p ∈ node.filter_messages mapped ↔
      p ∈ mapped ∧ p.2 ∈ node.unacknowledged_messages) := by
  constructor
  · simp [Node.retry]
  · intro p
    simp [Node.filter_messages, List.mem_filter]

/-- C4 counterexample: in the main.rs run loop an unparsable first line
terminates processing (error propagation): the following init line is never
handled, whereas alone it would set the node id. -/
theorem C4_cex_parse_failure_exits :
    Node.runMain node0 0 [none, some initMsg1] = (node0, [], true) ∧
    (Node.runMain node0 0 [some initMsg1]).1.id = some ("n1") :=
  ⟨rfl, by decide⟩

/-- C4 (amended): in the async pipeline (node.rs), an unparsable line is
reported as a parse error, leaves the state unchanged, and every subsequent
line is still processed (each input line yields exactly one result); in the
synchronous main.rs run loop, by contrast, a parse failure propagates and
terminates the loop. -/
theorem C4_parse_failure_amended (node : Node) (t : Nat)
    (ls : List (Option Message)) :
    Node.runLines node t (none :: ls) =
      ((Node.runLines node t ls).1,
        .parseError :: (Node.runLines node t ls).2) ∧
    (Node.runLines node t ls).2.length = ls.length := by
  constructor
  · rfl
  · induction ls generalizing node with
    | nil => rfl
    | cons l ls ih => simp [Node.runLines, ih]

/-- C5: for every node state and every sequence of accepted Broadcast
requests, the seen set accumulates exactly the distinct values broadcast,
and a subsequent Read request is answered by a ReadOk whose messages field
is exactly the full seen set. -/
theorem C5_read_reflects_values (node : Node) (d : String)
    (reqs : List (String × Nat)) (rs rd : String) (q t : Nat) :
    ∃ node2, runKindSeq node (broadcastKinds d reqs) = some node2 ∧
      node2.messages = node.messages ∪ (reqs.map Prod.snd).toFinset ∧
      ∃ node3, MessageKind.generate_response
          (.read ⟨some rs, rd, .read ⟨"read", some q⟩⟩) node2 t =
        some (some (.readOk node3.id rs
            ⟨node2.messages, some node3.current_message_id, q⟩), node3) := by
  obtain ⟨node2, h2, hm⟩ := runKindSeq_broadcasts d reqs node
  refine ⟨node2, h2, hm, (node2.next_message_id).2, ?_⟩
  simp [MessageKind.generate_response, Node.next_message_id]

/-- C6 counterexample: at the u32 wrap point the counter rolls over: the
allocation after value 4294967295 returns 0, which is not strictly greater,
so the allocator is not strictly increasing for every pair of consecutive
calls and can return a value again within a lifetime of more than 2^32
allocations. -/
theorem C6_cex_counter_wraps :
    (nodeWrap.next_message_id).1 = 4294967295 ∧
    ((nodeWrap.next_message_id).2.next_message_id).1 = 0 ∧
    ¬ (nodeWrap.next_message_id).1 <
        ((nodeWrap.next_message_id).2.next_message_id).1 :=
  ⟨by decide, by decide, by decide⟩

/-- C6 (amended): two consecutive id allocations always return different
values, and the second is strictly greater than the first whenever the
counter does not cross the u32 wrap point during the two calls; uniqueness
over the node lifetime only holds up to 2^32 allocations. -/
theorem C6_next_id_amended (node : Node) :
    (node.next_message_id).1 ≠
      ((node.next_message_id).2.next_message_id).1 ∧
    (node.current_message_id + 2 < U32 →
      (node.next_message_id).1 <
        ((node.next_message_id).2.next_message_id).1) := by
  constructor
  · simp only [Node.next_message_id]
    intro h
    rw [Nat.mod_add_mod] at h
    have hmod : (node.current_message_id + 1) % U32 =
        (node.current_message_id + 2) % U32 := by
      simpa using h
    have hdvd : U32 ∣ (node.current_message_id + 2) -
        (node.current_message_id + 1) :=
      (Nat.modEq_iff_dvd' (by omega)).mp hmod
    have h1 : (node.current_message_id + 2) -
        (node.current_message_id + 1) = 1 := by omega
    rw [h1] at hdvd
    have h2 : U32 ≤ 1 := Nat.le_of_dvd one_pos hdvd
    have h3 : U32 = 4294967296 := rfl
    omega
  · intro h
    have h1 : (node.current_message_id + 1) % U32 =
        node.current_message_id + 1 := Nat.mod_eq_of_lt (by omega)
    have h2 : (node.current_message_id + 2) % U32 =
        node.current_message_id + 2 := Nat.mod_eq_of_lt h
    simp only [Node.next_message_id]
    rw [Nat.mod_add_mod]
    have h3 : node.current_message_id + 1 + 1 =
        node.current_message_id + 2 := rfl
    rw [h3, h1, h2]
    omega

/-- Witness for C6 at the fresh node: the first two allocations are 1 and
2. -/
theorem C6_next_id_amended_witness :
    (node0.next_message_id).1 ≠
      ((node0.next_message_id).2.next_message_id).1 ∧
    (node0.current_message_id + 2 < U32 →
      (node0.next_message_id).1 <
        ((node0.next_message_id).2.next_message_id).1) :=
  C6_next_id_amended node0

/-- C7 counterexample: handling a second Init overwrites an already-set node
id (the assignment is unguarded), so the id is not immutable after the first
Init. -/
theorem C7_cex_reinit_overwrites :
    Node.run_callback nodeN1 (.init initMsg2) =
      some (⟨some ("n2"), ∅, [], 0, ∅, ∅⟩, none) ∧
    ¬ (some ("n2") : Option String) = some ("n1") :=
  ⟨by decide, by decide⟩

/-- C7 (amended): every Init message (not only the first) overwrites the
node id with the node_id of its payload, in both the node.rs and the
main.rs/message.rs handler; every non-Init message whose handling succeeds
leaves the id unchanged. -/
theorem C7_id_amended (node : Node) (m : Message) (b : InitBody)
    (hb : m.body = .init b) :
    Node.run_callback node (.init m) =
      some ({ node with id := some b.node_id }, none) ∧
    MessageKind.run_callback (.init m) node =
      some ({ node with id := some b.node_id }, []) ∧
    (∀ msg : NodeMsg, msg.isInit = false →
      ∀ r, Node.run_callback node msg = some r → r.1.id = node.id) ∧
    (∀ msg : MessageKind, msg.isInit = false →
      ∀ r, MessageKind.run_callback msg node = some r → r.1.id = node.id) := by
  refine ⟨by simp [Node.run_callback, hb],
    by simp [MessageKind.run_callback, hb], ?_, ?_⟩
  · intro msg hni r h
    exact run_callback_id_preserved node msg hni r h
  · intro msg hni r h
    exact kind_run_callback_id_preserved node msg hni r h

/-- Witness for C7 at the already-initialized node n1 and the init request
naming n1. -/
theorem C7_id_amended_witness :
    Node.run_callback nodeN1 (.init initMsg1) =
      some ({ nodeN1 with id := some ("n1") }, none) ∧
    MessageKind.run_callback (.init initMsg1) nodeN1 =
      some ({ nodeN1 with id := some ("n1") }, []) ∧
    (∀ msg : NodeMsg, msg.isInit = false →
      ∀ r, Node.run_callback nodeN1 msg = some r → r.1.id = nodeN1.id) ∧
    (∀ msg : MessageKind, msg.isInit = false →
      ∀ r, MessageKind.run_callback msg nodeN1 = some r →
        r.1.id = nodeN1.id) :=
  C7_id_amended nodeN1 initMsg1 ⟨some 1, "n1", none⟩ rfl

/-- C8 counterexample: with the node id unset, handling a Topology message
panics (the handler unwraps the unset id to look up the adjacency list), so
Generate is not the only fatal kind before Init. -/
theorem C8_cex_topology_panics :
    node0.id = none ∧
    Node.run_callback node0 (.topology topoMsg) = none :=
  ⟨rfl, by decide⟩

/-- C8 (amended): while the node id is unset, the Generate reply path is
fatal as claimed, but the Topology and BroadcastOk handlers are fatal too
(both unwrap the unset id); Echo, Read, Generate and Invalid pre-dispatch
handling are no-ops, and Broadcast (src present) and Init handling always
succeed. -/
theorem C8_unset_id_amended (node : Node) (t : Nat) (hid : node.id = none)
    (mg mt mb me : Message) (bg : GenerateBody) (bt : TopologyBody)
    (bb : BroadcastBody) (sg sb : String)
    (hg1 : mg.body = .generate bg) (hg2 : mg.src = some sg)
    (ht : mt.body = .topology bt)
    (hb1 : mb.body = .broadcast bb) (hb2 : mb.src = some sb) :
    MessageKind.generate_response (.generate mg) node t = none ∧
    Node.run_callback node (.topology mt) = none ∧
    Node.run_callback node (.broadcastOk me) = none ∧
    Node.run_callback node (.echo me) = some (node, none) ∧
    Node.run_callback node (.read me) = some (node, none) ∧
    Node.run_callback node (.generate me) = some (node, none) ∧
    Node.run_callback node (.invalid me) = some (node, none) ∧
    (∃ r, Node.run_callback node (.broadcast mb) = some r) ∧
    (∃ r, Node.run_callback node (.init me) = some r) := by
  obtain ⟨mbs, mbd, mbb⟩ := mb
  simp only at hb1 hb2
  subst hb1
  subst hb2
  refine ⟨?_, ?_, ?_, rfl, rfl, rfl, rfl, ?_, ?_⟩
  · simp [MessageKind.generate_response, hg1, hg2, Node.generate_uuid,
      Node.next_message_id, hid]
  · simp [Node.run_callback, ht, hid]
  · simp [Node.run_callback, hid]
  · by_cases hseen : bb.message ∈ node.messages
    · exact ⟨(node, none),
        run_callback_broadcast_seen node mbd (some sb) bb.message bb.msg_id
          bb.in_reply_to hseen⟩
    · exact ⟨_,
        run_callback_broadcast_unseen node mbd sb bb.message bb.msg_id
          bb.in_reply_to hseen⟩
  · rw [← Option.isSome_iff_exists]
    cases hmb : me.body <;> simp [Node.run_callback, hmb]

/-- Witness for C8 at the fresh uninitialized node with concrete generate,
topology, broadcast and echo requests. -/
theorem C8_unset_id_amended_witness :
    MessageKind.generate_response (.generate genMsg1) node0 0 = none ∧
    Node.run_callback node0 (.topology topoMsg) = none ∧
    Node.run_callback node0 (.broadcastOk echoMsg1) = none ∧
    Node.run_callback node0 (.echo echoMsg1) = some (node0, none) ∧
    Node.run_callback node0 (.read echoMsg1) = some (node0, none) ∧
    Node.run_callback node0 (.generate echoMsg1) = some (node0, none) ∧
    Node.run_callback node0 (.invalid echoMsg1) = some (node0, none) ∧
    (∃ r, Node.run_callback node0 (.broadcast bcastMsg1) = some r) ∧
    (∃ r, Node.run_callback node0 (.init echoMsg1) = some r) :=
  C8_unset_id_amended node0 0 rfl genMsg1 topoMsg bcastMsg1 echoMsg1 ⟨5⟩
    ⟨[("n1", ["n2"])], some 1⟩ ⟨9, some 3, none⟩ "c1" "c1" rfl rfl rfl rfl rfl

/-- C9 counterexample: a message with a null src classified as Read but
carrying a non-read type discriminator is answered without panicking (the
message.rs Read arm returns early with no reply before touching src), so the
reply computation does not panic for every request kind. -/
theorem C9_cex_read_no_panic :
    readWrongType.src = none ∧
    MessageKind.generate_response (.read readWrongType) node0 0 =
      some (none, node0) :=
  ⟨rfl, by decide⟩

/-- C9 (amended): for every inbound message whose src is null, computing the
reply panics in every request kind except the one early return of the
message.rs Read arm when the body type discriminator is not read, which
yields no reply and leaves the node unchanged; in every case a reply is only
produced when src is present. -/
theorem C9_null_src_amended (msg : MessageKind) (node : Node) (t : Nat)
    (hsrc : msg.envelope.src = none) :
    (readEscape msg = false →
      MessageKind.generate_response msg node t = none) ∧
    (readEscape msg = true →
      MessageKind.generate_response msg node t = some (none, node)) := by
  cases msg <;> rename_i m <;> obtain ⟨ms, md, mb⟩ := m <;>
    (replace hsrc : ms = none := hsrc) <;> subst hsrc <;>
    cases mb <;> constructor <;> intro hre <;>
    simp_all [readEscape, MessageKind.generate_response,
      Node.generate_uuid, Node.next_message_id]

/-- Witness for C9 at an echo request with a null src: the reply computation
panics. -/
theorem C9_null_src_amended_witness :
    (readEscape (.echo echoNoSrc) = false →
      MessageKind.generate_response (.echo echoNoSrc) node0 0 = none) ∧
    (readEscape (.echo echoNoSrc) = true →
      MessageKind.generate_response (.echo echoNoSrc) node0 0 =
        some (none, node0)) :=
  C9_null_src_amended (.echo echoNoSrc) node0 0 rfl

/-- C10: handling an Echo, Read, Generate or Invalid message mutates nothing
in either pre-dispatch handler, and a successful reply computation for these
kinds changes no node state other than the message-id counter: id, seen set,
topology, callback table and unacknowledged set are all unchanged. -/
theorem C10_quiet_kinds_frame (m : Message) (node : Node) (t : Nat) :
    (Node.run_callback node (.echo m) = some (node, none) ∧
     Node.run_callback node (.read m) = some (node, none) ∧
     Node.run_callback node (.generate m) = some (node, none) ∧
     Node.run_callback node (.invalid m) = some (node, none)) ∧
    (MessageKind.run_callback (.echo m) node = some (node, []) ∧
     MessageKind.run_callback (.read m) node = some (node, []) ∧
     MessageKind.run_callback (.generate m) node = some (node, []) ∧
     MessageKind.run_callback (.invalid m) node = some (node, [])) ∧
    (∀ msg : MessageKind,
      (msg = .echo m ∨ msg = .read m ∨ msg = .generate m ∨
        msg = .invalid m) →
      ∀ rn, MessageKind.generate_response msg node t = some rn →
        rn.2.id = node.id ∧ rn.2.messages = node.messages ∧
        rn.2.topology = node.topology ∧
        rn.2.response_callbacks = node.response_callbacks ∧
        rn.2.unacknowledged_messages = node.unacknowledged_messages) := by
  refine ⟨⟨rfl, rfl, rfl, rfl⟩, ⟨rfl, rfl, rfl, rfl⟩, ?_⟩
  intro msg _ rn h
  exact generate_response_frame msg node t rn h

/-- Witness for C10 at the echo request from c1 and the fresh node. -/
theorem C10_quiet_kinds_frame_witness :
    (Node.run_callback node0 (.echo echoMsg1) = some (node0, none) ∧
     Node.run_callback node0 (.read echoMsg1) = some (node0, none) ∧
     Node.run_callback node0 (.generate echoMsg1) = some (node0, none) ∧
     Node.run_callback node0 (.invalid echoMsg1) = some (node0, none)) ∧
    (MessageKind.run_callback (.echo echoMsg1) node0 = some (node0, []) ∧
     MessageKind.run_callback (.read echoMsg1) node0 = some (node0, []) ∧
     MessageKind.run_callback (.generate echoMsg1) node0 =
       some (node0, []) ∧
     MessageKind.run_callback (.invalid echoMsg1) node0 =
       some (node0, [])) ∧
    (∀ msg : MessageKind,
      (msg = .echo echoMsg1 ∨ msg = .read echoMsg1 ∨
        msg = .generate echoMsg1 ∨ msg = .invalid echoMsg1) →
      ∀ rn, MessageKind.generate_response msg node0 0 = some rn →
        rn.2.id = node0.id ∧ rn.2.messages = node0.messages ∧
        rn.2.topology = node0.topology ∧
        rn.2.response_callbacks = node0.response_callbacks ∧
        rn.2.unacknowledged_messages = node0.unacknowledged_messages) :=
  C10_quiet_kinds_frame echoMsg1 node0 0

end Tranquility
